import Mathlib

/- Shallow embedding of the SEO audit tool (seo_audit.py and web_interface.py):
the score aggregator, the per-check failure boundary, the broken-link probe,
the document model shared by the analyzers, and the job manager's identifier
and status handling. -/

namespace SEOAudit

/-- Finding models the claim-relevant keys of the per-check result dict built by the
analyzers in seo_audit.py: the optional status, error and recommendation entries.
A key that is absent from the Python dict is modelled as none.  Other payload keys
(counts, sample lists) never influence scoring or control flow. -/
structure Finding where
  status : Option String
  error : Option String
  recommendation : Option String
deriving DecidableEq

/-- Floor of a rational, computed from its reduced numerator and denominator. -/
def ratFloor (q : ℚ) : Int := q.num.fdiv q.den

/-- Round a rational to the nearest integer, halves to even, mirroring Python round
on exactly representable values (binary floating-point representation artifacts are
outside the embedding). -/
def roundHalfEven (x : ℚ) : Int :=
  let f := ratFloor x
  if x - f < 1/2 then f
  else if x - f > 1/2 then f + 1
  else if f % 2 = 0 then f else f + 1

/-- Python round(x, 1): one decimal digit. -/
def round1 (x : ℚ) : ℚ := (roundHalfEven (x * 10) : ℚ) / 10

/-- Scores block produced by _calculate_scores (seo_audit.py lines 835-871). -/
structure Scores where
  technical_seo_score : ℚ
  on_page_seo_score : ℚ
  off_page_seo_score : ℚ
  user_experience_score : ℚ
  security_performance_score : ℚ
  overall_score : ℚ
deriving DecidableEq

/-- AuditReport models self.audit_results: the five category mappings (check name
to Finding, in insertion order), the optional top-level error string, and the
scores block once computed.  The pagespeed_insights key is outside the core. -/
structure AuditReport where
  url : String
  domain : String
  technical_seo : List (String × Finding)
  on_page_seo : List (String × Finding)
  off_page_seo : List (String × Finding)
  user_experience : List (String × Finding)
  security_performance : List (String × Finding)
  error : Option String
  scores : Option Scores
deriving DecidableEq

/-- Points awarded per status value by _calculate_scores: good adds 100,
needs_improvement adds 50, anything else adds nothing. -/
def statusPoints (s : String) : ℚ :=
  if s = "good" then 100 else if s = "needs_improvement" then 50 else 0

/-- One step of the loop in _calculate_scores: a dict value carrying a status key
adds its points to the running total and bumps the item count; a value without a
status key is skipped entirely. -/
def scoreStep (acc : ℚ × Nat) (kv : String × Finding) : ℚ × Nat :=
  match kv.2.status with
  | some s => (acc.1 + statusPoints s, acc.2 + 1)
  | none => acc

/-- Embedding of _calculate_scores (seo_audit.py lines 835-871).  Only the
technical_seo category is ever scanned; the other four category scores are left
at their initial 0 (the source stops at the comment announcing the remaining
categories).  The overall score divides the sum of all entries of the scores
dict by the number of strictly positive entries, guarded by Python truthiness
of any(scores.values()). -/
def calculate_scores (r : AuditReport) : Scores :=
  let p := r.technical_seo.foldl scoreStep (0, 0)
  let technical_seo_score := round1 (if p.2 > 0 then p.1 / (p.2 : ℚ) else 0)
  let vals : List ℚ := [technical_seo_score, 0, 0, 0, 0, 0]
  let overall_score :=
    if vals.any (fun v => v != 0) then
      round1 (vals.sum / (((vals.filter (fun v => decide (0 < v))).length : ℚ)))
    else 0
  { technical_seo_score := technical_seo_score
    on_page_seo_score := 0
    off_page_seo_score := 0
    user_experience_score := 0
    security_performance_score := 0
    overall_score := overall_score }

/-- Category scoring rule exactly as the claim states it (spec section 4.4):
scan the category's Findings for a status field, award good=100,
needs_improvement=50, poor or error=0, and take the mean of the contributing
points, 0 when no Finding carries a status.  This is the claim-side definition,
kept for comparison with calculate_scores. -/
def claimCategoryScore (cat : List (String × Finding)) : ℚ :=
  let pts := cat.filterMap (fun kv => kv.2.status.map statusPoints)
  if pts.length = 0 then 0 else pts.sum / (pts.length : ℚ)

/-- Overall scoring rule exactly as the claim states it: the mean of those
category scores that are strictly greater than zero, categories scoring exactly
zero being excluded.  Claim-side definition for comparison. -/
def claimOverallScore (r : AuditReport) : ℚ :=
  let cats := [claimCategoryScore r.technical_seo, claimCategoryScore r.on_page_seo,
               claimCategoryScore r.off_page_seo, claimCategoryScore r.user_experience,
               claimCategoryScore r.security_performance]
  let pos := cats.filter (fun v => decide (0 < v))
  if pos.length = 0 then 0 else pos.sum / (pos.length : ℚ)

/-- A Finding whose status is good, as the title_tags analyzer produces for a
45-character title. -/
def goodFinding : Finding :=
  { status := some "good", error := none
    recommendation := some "Title length is 45 characters. Optimal range is 30-60 characters." }

/-- Concrete audit results exhibiting the scoring divergence: the technical
category is empty and the on-page category holds one good Finding. -/
def divergenceReport : AuditReport :=
  { url := "https://example.com", domain := "example.com"
    technical_seo := []
    on_page_seo := [("title_tags", goodFinding)]
    off_page_seo := [], user_experience := [], security_performance := []
    error := none, scores := none }

/-- Boundary wrapper around one analyzer invocation: every check in the
_audit_* category functions runs inside its own try block, and on an internal
failure the stored value is the dict holding only the key error with the
message, so the stored Finding has no status and no recommendation key
(seo_audit.py lines 142-161 and 225-290). -/
def runCheck (result : Except String Finding) : Finding :=
  match result with
  | Except.ok f => f
  | Except.error e => { status := none, error := some e, recommendation := none }

/- Document model.  Modelled from the spec: the DocumentModel collaborator
(BeautifulSoup, outside src/) is a queryable DOM-like tree with tag and
attribute lookup, text extraction and serialization; elements carry a tag,
attributes in document order, and children. -/

mutual
inductive Node where
  | element (tag : String) (attrs : List (String × String)) (children : NodeList)
  | textNode (s : String)
inductive NodeList where
  | nil
  | cons (head : Node) (tail : NodeList)
end

/-- Build a NodeList from a plain list of nodes. -/
def ofList : List Node → NodeList
  | [] => NodeList.nil
  | n :: ns => NodeList.cons n (ofList ns)

/-- First value bound to an attribute key, mirroring tag.get(key). -/
def attrsGet (attrs : List (String × String)) (k : String) : Option String :=
  (attrs.find? (fun a => a.1 == k)).map Prod.snd

/-- Attribute lookup on a node; text nodes have no attributes. -/
def Node.getAttr : Node → String → Option String
  | Node.textNode _, _ => none
  | Node.element _ attrs _, k => attrsGet attrs k

mutual
/-- Matching descendants of one node in document order (soup.find_all on a
predicate over tag name and attributes), the node itself included. -/
def nodeFindAll (p : String → List (String × String) → Bool) : Node → List Node
  | Node.textNode _ => []
  | Node.element tag attrs children =>
      (if p tag attrs then [Node.element tag attrs children] else []) ++ listFindAll p children
/-- Matching nodes of a whole forest in document order. -/
def listFindAll (p : String → List (String × String) → Bool) : NodeList → List Node
  | NodeList.nil => []
  | NodeList.cons n ns => nodeFindAll p n ++ listFindAll p ns
end

/-- soup.find: the first matching element in document order, if any. -/
def find_first (p : String → List (String × String) → Bool) (d : NodeList) : Option Node :=
  (listFindAll p d).head?

/-- soup.find_all on a list of tag names. -/
def findAllTag (tags : List String) (d : NodeList) : List Node :=
  listFindAll (fun t _ => tags.contains t) d

mutual
/-- Serialization of one node, mirroring str(soup) on the subtree: tags with
their attributes in order, text verbatim. -/
def serializeNode : Node → String
  | Node.textNode s => s
  | Node.element tag attrs children =>
      "<" ++ tag ++ String.join (attrs.map (fun a => " " ++ a.1 ++ "=\"" ++ a.2 ++ "\"")) ++ ">"
        ++ serializeList children ++ "</" ++ tag ++ ">"
/-- Serialization of a forest, mirroring str(soup). -/
def serializeList : NodeList → String
  | NodeList.nil => ""
  | NodeList.cons n ns => serializeNode n ++ serializeList ns
end

mutual
/-- Concatenated text content of one node (soup.get_text on the subtree). -/
def nodeGetText : Node → String
  | Node.textNode s => s
  | Node.element _ _ children => listGetText children
/-- Concatenated text content of a forest (soup.get_text). -/
def listGetText : NodeList → String
  | NodeList.nil => ""
  | NodeList.cons n ns => nodeGetText n ++ listGetText ns
end

mutual
/-- Effect of tag.decompose on one node: a node whose tag is listed disappears
with its whole subtree; other nodes keep their structure with the removal
applied to their children. -/
def nodeRemoveTags (tags : List String) : Node → Option Node
  | Node.textNode s => some (Node.textNode s)
  | Node.element tag attrs children =>
      if tags.contains tag then none
      else some (Node.element tag attrs (listRemoveTags tags children))
/-- Effect of decomposing every element with a listed tag from a forest,
as the loop for script in soup(["script", "style"]): script.decompose(). -/
def listRemoveTags (tags : List String) : NodeList → NodeList
  | NodeList.nil => NodeList.nil
  | NodeList.cons n ns =>
      match nodeRemoveTags tags n with
      | none => listRemoveTags tags ns
      | some n2 => NodeList.cons n2 (listRemoveTags tags ns)
end

/-- Non-overlapping occurrence scan: the counter in the second argument is the
number of characters still to skip after a match, so matches never overlap,
as with re.findall on a plain pattern.  Empty patterns are not counted. -/
def countOccAux (pat : List Char) : List Char → Nat → Nat
  | [], _ => 0
  | c :: cs, 0 =>
      if !pat.isEmpty && pat.isPrefixOf (c :: cs) then 1 + countOccAux pat cs (pat.length - 1)
      else countOccAux pat cs 0
  | _ :: cs, k + 1 => countOccAux pat cs k

/-- Number of non-overlapping occurrences of a pattern, mirroring
len(re.findall(pattern, text)) for a pattern without metacharacters. -/
def countOcc (pat : List Char) (s : List Char) : Nat := countOccAux pat s 0

/-- Substring test: true when pat occurs somewhere in the text, mirroring the
Python in operator on strings. -/
def listInfix (pat : List Char) : List Char → Bool
  | [] => pat.isEmpty
  | c :: cs => pat.isPrefixOf (c :: cs) || listInfix pat cs

/-- The string child of an element (script.string): the single text child, if
the element has exactly one child and it is text. -/
def nodeString : Node → Option String
  | Node.element _ _ (NodeList.cons (Node.textNode s) NodeList.nil) => some s
  | _ => none

/-- Result of _analyze_content (seo_audit.py lines 540-562). -/
structure ContentFinding where
  word_count : Nat
  sentence_count : Nat
  avg_sentence_length : ℚ
  estimated_reading_time : ℚ
  status : String
  recommendation : String
deriving DecidableEq

/-- Embedding of _analyze_content (seo_audit.py lines 540-562).  The source
first decomposes every script and style element of the shared soup — a
mutation, returned here as the second component — then tokenizes the remaining
text.  Sentence splitting on single occurrences of . ! ? followed by the
nonblank filter yields the same count as splitting on runs of those characters,
which is what re.split with the [.!?]+ pattern does. -/
def analyze_content (d : NodeList) : ContentFinding × NodeList :=
  let d2 := listRemoveTags ["script", "style"] d
  let text := listGetText d2
  let words := (text.split (fun c => c.isWhitespace)).filter (fun s => s != "")
  let word_count := words.length
  let sentences := text.split (fun c => c == '.' || c == '!' || c == '?')
  let sentence_count := (sentences.filter (fun s => s.trim != "")).length
  let avg := if sentence_count > 0 then (word_count : ℚ) / (sentence_count : ℚ) else 0
  ({ word_count := word_count
     sentence_count := sentence_count
     avg_sentence_length := round1 avg
     estimated_reading_time := round1 ((word_count : ℚ) / 200)
     status := if word_count ≥ 300 then "good" else "needs_improvement"
     recommendation := if word_count < 300 then "Add more content for better SEO" else "Good content length" }, d2)

/-- Result of _check_responsive_design (seo_audit.py lines 669-680). -/
structure ResponsiveFinding where
  has_viewport_meta : Bool
  viewport_content : Option String
  css_media_queries_found : Nat
  status : String
  recommendation : String
deriving DecidableEq

/-- Embedding of _check_responsive_design (seo_audit.py lines 669-680): finds
the viewport meta tag and counts occurrences of the literal text media-query
marker in the serialized document str(self.soup). -/
def check_responsive_design (d : NodeList) : ResponsiveFinding :=
  let viewport_meta := find_first (fun t a => t == "meta" && attrsGet a "name" == some "viewport") d
  let css_media_queries := countOcc ("@media".toList) (serializeList d).toList
  { has_viewport_meta := viewport_meta.isSome
    viewport_content := viewport_meta.bind (fun n => n.getAttr "content")
    css_media_queries_found := css_media_queries
    status := if viewport_meta.isSome ∧ 0 < css_media_queries then "good" else "needs_improvement"
    recommendation := if viewport_meta.isSome then "Responsive design indicators found" else "Implement responsive design" }

/-- Result of _analyze_structured_data (seo_audit.py lines 399-433). -/
structure StructuredData where
  json_ld_scripts : List (String × String)
  microdata_items : List String
  rdfa_properties : List String
  total_schemas : Nat
  status : String
  recommendation : String
deriving DecidableEq

/-- Embedding of _analyze_structured_data (seo_audit.py lines 399-433).  The
parse argument models the json.loads boundary (outside src/): some gives the
type and context entries of a successfully parsed block, none a malformed one,
which is skipped from the reported sample only.  The total counts every JSON-LD
script block, every element with an itemtype attribute and every element with a
property attribute; the cap of 10 applies only to the reported RDFa sample. -/
def analyze_structured_data (parse : String → Option (String × String)) (d : NodeList) :
    StructuredData :=
  let json_ld_nodes := listFindAll (fun t a => t == "script" && attrsGet a "type" == some "application/ld+json") d
  let json_ld_sample := json_ld_nodes.filterMap (fun n => (nodeString n).bind parse)
  let microdata_nodes := listFindAll (fun _ a => (attrsGet a "itemtype").isSome) d
  let microdata_items := microdata_nodes.filterMap (fun n => n.getAttr "itemtype")
  let rdfa_nodes := listFindAll (fun _ a => (attrsGet a "property").isSome) d
  let rdfa_properties := (rdfa_nodes.take 10).filterMap (fun n => n.getAttr "property")
  let total := json_ld_nodes.length + microdata_nodes.length + rdfa_nodes.length
  { json_ld_scripts := json_ld_sample
    microdata_items := microdata_items
    rdfa_properties := rdfa_properties
    total_schemas := total
    status := if total > 0 then "good" else "needs_improvement"
    recommendation := if total = 0 then "Add structured data markup" else "Structured data found" }

/- Link probe (_check_broken_links, seo_audit.py lines 435-464). -/

/-- Outcome of one HEAD existence check: a response with a status code, or a
transport exception. -/
inductive HeadOutcome where
  | status (code : Nat)
  | exc
deriving DecidableEq

/-- An anchor sampled from the page: its href and its anchor text. -/
structure Anchor where
  href : String
  text : String
deriving DecidableEq

/-- One entry of the internal or external broken-link list. -/
structure LinkData where
  url : String
  status_code : Nat
  text : String
deriving DecidableEq

/-- Accumulated probe output. -/
structure BrokenLinks where
  internal : List LinkData
  external : List LinkData
  total_checked : Nat
  broken_count : Nat
  status : String
  recommendation : String
deriving DecidableEq

/-- Links the probe skips: empty href, fragment-only, mailto: and tel: targets.
Prefix tests are spelled on the character lists, which is what str.startswith
means. -/
def skipHref (href : String) : Bool :=
  href.data.isEmpty || ("#".data).isPrefixOf href.data
    || ("mailto:".data).isPrefixOf href.data || ("tel:".data).isPrefixOf href.data

/-- One iteration of the loop in _check_broken_links.  The resolve argument
models urljoin against the base URL and head models session.head, both outside
src/.  A response of 400 or above buckets the link by the Python membership
test of the audited domain in the full resolved URL string; a transport
exception only increments the broken count, appending to neither list. -/
def processLink (resolve : String → String) (head : String → HeadOutcome) (domain : String)
    (acc : BrokenLinks) (link : Anchor) : BrokenLinks :=
  if skipHref link.href then acc
  else
    let full_url := resolve link.href
    let acc1 := { acc with total_checked := acc.total_checked + 1 }
    match head full_url with
    | HeadOutcome.status code =>
      if code ≥ 400 then
        let ld : LinkData := { url := full_url, status_code := code, text := link.text.take 50 }
        if listInfix domain.data full_url.data then
          { acc1 with internal := acc1.internal ++ [ld], broken_count := acc1.broken_count + 1 }
        else
          { acc1 with external := acc1.external ++ [ld], broken_count := acc1.broken_count + 1 }
      else acc1
    | HeadOutcome.exc => { acc1 with broken_count := acc1.broken_count + 1 }

/-- Embedding of _check_broken_links (seo_audit.py lines 435-464): the probe
Scans the first 20 anchors carrying an href and post-fills the status and
recommendation fields from the final broken count. -/
def check_broken_links (resolve : String → String) (head : String → HeadOutcome)
    (domain : String) (links : List Anchor) : BrokenLinks :=
  let init : BrokenLinks :=
    { internal := [], external := [], total_checked := 0, broken_count := 0
      status := "", recommendation := "" }
  let r := (links.take 20).foldl (processLink resolve head domain) init
  { r with status := if r.broken_count = 0 then "good" else "needs_improvement"
           recommendation := if r.broken_count > 0 then "Fix broken links" else "No broken links found" }

/-- A sampled link whose existence check raises a transport exception. -/
def isExcLink (resolve : String → String) (head : String → HeadOutcome) (l : Anchor) : Bool :=
  !skipHref l.href &&
    (match head (resolve l.href) with
     | HeadOutcome.exc => true
     | HeadOutcome.status _ => false)

/-- Number of sampled links that fail with a transport exception. -/
def excCount (resolve : String → String) (head : String → HeadOutcome) (links : List Anchor) : Nat :=
  ((links.take 20).filter (isExcLink resolve head)).length

/-- Host of an absolute URL: the text between the scheme separator and the next
slash, mirroring urlparse(url).netloc for simple absolute URLs.  Claim-side
helper for the exact-host-match reading of the classification rule. -/
def dropThroughSep : List Char → List Char
  | ':' :: '/' :: '/' :: rest => rest
  | _ :: rest => dropThroughSep rest
  | [] => []

/-- Host component of an absolute URL; claim-side helper. -/
def hostOf (url : String) : String :=
  String.mk ((dropThroughSep url.toList).takeWhile (fun c => c != '/'))

/- Pipeline and job manager (audit_website, seo_audit.py lines 41-102;
web_interface.py). -/

/-- Outcome of the single page fetch: the parsed document, or the message of
the network or timeout exception raised by session.get. -/
inductive FetchResult where
  | ok (d : NodeList)
  | fail (msg : String)

/-- Embedding of audit_website (seo_audit.py lines 41-102).  The whole body
runs inside one try block: when the fetch raises, control jumps straight to the
handler, which records the message under the top-level error key and returns
the report with every category still holding its initial empty mapping; no
analyzer runs and no scores are computed.  On success the five category
auditors run in order and the scores are filled in. -/
def audit_website (url domain : String) (fetch : FetchResult)
    (tech onp offp ux sec : NodeList → List (String × Finding)) : AuditReport :=
  let r0 : AuditReport :=
    { url := url, domain := domain
      technical_seo := [], on_page_seo := [], off_page_seo := []
      user_experience := [], security_performance := []
      error := none, scores := none }
  match fetch with
  | FetchResult.fail e => { r0 with error := some e }
  | FetchResult.ok d =>
      let r1 := { r0 with technical_seo := tech d, on_page_seo := onp d, off_page_seo := offp d
                          user_experience := ux d, security_performance := sec d }
      { r1 with scores := some (calculate_scores r1) }

/-- Identifier assigned by start_audit (web_interface.py line 39): the fixed
prefix, the second-resolution timestamp, and the Python hash of the URL reduced
modulo 10000.  The hash function itself is runtime state, passed in as an
argument; Int.emod agrees with the Python modulo for a positive modulus. -/
def start_audit_id (now : String) (urlHash : Int) : String :=
  "audit_" ++ now ++ "_" ++ toString (urlHash % 10000)

/-- Identifiers assigned to a sequence of submissions, each given by its
second-resolution timestamp and its URL. -/
def submission_ids (h : String → Int) (events : List (String × String)) : List String :=
  events.map (fun ev => start_audit_id ev.1 (h ev.2))

/-- Embedding of audit_status (web_interface.py lines 62-74): the status is
completed exactly when the identifier is a key of the result cache, and running
otherwise; the payload also echoes the identifier. -/
def audit_status (cache : List (String × AuditReport)) (id0 : String) : String × String :=
  if (cache.map Prod.fst).contains id0 then ("completed", id0) else ("running", id0)

/- Concrete inputs used by the theorems below. -/

/-- A page whose only media query lives inside a style element, together with a
viewport meta tag and some body text. -/
def mediaDoc : NodeList := ofList [
  Node.element "head" [] (ofList [
    Node.element "meta" [("name", "viewport"), ("content", "width=device-width, initial-scale=1")] NodeList.nil,
    Node.element "style" [] (ofList [Node.textNode "@media screen and (max-width: 600px) color red"])]),
  Node.element "body" [] (ofList [Node.textNode "Hello world. This is sample text!"])]

/-- A page containing no script or style element at all. -/
def bodyOnlyDoc : NodeList := ofList [
  Node.element "body" [] (ofList [Node.textNode "Hello world."])]

/-- A page whose only structured data is a single JSON-LD script block whose
content fails to parse. -/
def badJsonDoc : NodeList := ofList [
  Node.element "head" [] (ofList [
    Node.element "script" [("type", "application/ld+json")] (ofList [Node.textNode "not valid json at all"])])]

/-- A category auditor that, when actually invoked, records one good Finding. -/
def c5Analyzer : NodeList → List (String × Finding) :=
  fun _ => [("sample_check", { status := some "good", error := none, recommendation := some "ok" })]

/-- Report produced when the fetch times out with analyzers that would have
produced findings. -/
def c5Report : AuditReport :=
  audit_website "https://example.com" "example.com" (FetchResult.fail "Connection timed out")
    c5Analyzer c5Analyzer c5Analyzer c5Analyzer c5Analyzer

/- Helper lemmas about the link probe. -/

/-- Broken count minus the two list lengths, the quantity conserved up to
transport exceptions by every probe step. -/
def probeDelta (b : BrokenLinks) : Int :=
  (b.broken_count : Int) - b.internal.length - b.external.length

theorem probeDelta_processLink (resolve : String → String) (head : String → HeadOutcome)
    (domain : String) (acc : BrokenLinks) (l : Anchor) :
    probeDelta (processLink resolve head domain acc l)
      = probeDelta acc + (if isExcLink resolve head l then 1 else 0) := by
  by_cases hskip : skipHref l.href
  · simp [processLink, isExcLink, hskip]
  · cases hh : head (resolve l.href) with
    | status code =>
      by_cases hc : code ≥ 400
      · by_cases hi : listInfix domain.data (resolve l.href).data
        · simp [processLink, isExcLink, hskip, hh, hc, hi, probeDelta, List.length_append]
        · simp [processLink, isExcLink, hskip, hh, hc, hi, probeDelta, List.length_append]
          omega
      · simp [processLink, isExcLink, hskip, hh, hc, probeDelta]
    | exc =>
      simp [processLink, isExcLink, hskip, hh, probeDelta]
      omega

theorem probeDelta_foldl (resolve : String → String) (head : String → HeadOutcome)
    (domain : String) :
    ∀ (links : List Anchor) (acc : BrokenLinks),
      probeDelta (links.foldl (processLink resolve head domain) acc)
        = probeDelta acc + ((links.filter (isExcLink resolve head)).length : Int) := by
  intro links
  induction links with
  | nil => intro acc; simp
  | cons l ls ih =>
    intro acc
    simp only [List.foldl_cons, List.filter_cons]
    rw [ih, probeDelta_processLink]
    by_cases he : isExcLink resolve head l
    · simp [he]; omega
    · simp [he]

theorem probe_all_processLink (resolve : String → String) (head : String → HeadOutcome)
    (domain : String) (acc : BrokenLinks) (l : Anchor)
    (h1 : acc.internal.all (fun ld => listInfix domain.data ld.url.data) = true)
    (h2 : acc.external.all (fun ld => !listInfix domain.data ld.url.data) = true) :
    (processLink resolve head domain acc l).internal.all
        (fun ld => listInfix domain.data ld.url.data) = true
    ∧ (processLink resolve head domain acc l).external.all
        (fun ld => !listInfix domain.data ld.url.data) = true := by
  by_cases hskip : skipHref l.href
  · simp only [processLink, hskip, if_true]
    exact ⟨h1, h2⟩
  · cases hh : head (resolve l.href) with
    | status code =>
      by_cases hc : code ≥ 400
      · by_cases hi : listInfix domain.data (resolve l.href).data
        · simp [processLink, hskip, hh, hc, hi, List.all_append, h1, h2]
        · simp [processLink, hskip, hh, hc, hi, List.all_append, h1, h2]
      · simp [processLink, hskip, hh, hc, h1, h2]
    | exc =>
      simp [processLink, hskip, hh, h1, h2]

theorem probe_all_foldl (resolve : String → String) (head : String → HeadOutcome)
    (domain : String) :
    ∀ (links : List Anchor) (acc : BrokenLinks),
      acc.internal.all (fun ld => listInfix domain.data ld.url.data) = true →
      acc.external.all (fun ld => !listInfix domain.data ld.url.data) = true →
      (links.foldl (processLink resolve head domain) acc).internal.all
          (fun ld => listInfix domain.data ld.url.data) = true
      ∧ (links.foldl (processLink resolve head domain) acc).external.all
          (fun ld => !listInfix domain.data ld.url.data) = true := by
  intro links
  induction links with
  | nil => intro acc h1 h2; exact ⟨h1, h2⟩
  | cons l ls ih =>
    intro acc h1 h2
    simp only [List.foldl_cons]
    have hstep := probe_all_processLink resolve head domain acc l h1 h2
    exact ih (processLink resolve head domain acc l) hstep.1 hstep.2

/- Helper lemma about decomposition. -/

mutual
theorem nodeRemoveTags_of_no_find (tags : List String) (n : Node)
    (h : nodeFindAll (fun t _ => tags.contains t) n = []) :
    nodeRemoveTags tags n = some n := by
  match n with
  | Node.textNode s => rfl
  | Node.element tag attrs children =>
    simp only [nodeFindAll] at h
    rcases List.append_eq_nil.mp h with ⟨h1, h2⟩
    have hp : ¬ tag ∈ tags := by
      intro hb
      simp [hb] at h1
    have ih := listRemoveTags_of_no_find tags children h2
    simp [nodeRemoveTags, hp, ih]
theorem listRemoveTags_of_no_find (tags : List String) (d : NodeList)
    (h : listFindAll (fun t _ => tags.contains t) d = []) :
    listRemoveTags tags d = d := by
  match d with
  | NodeList.nil => rfl
  | NodeList.cons n ns =>
    simp only [listFindAll] at h
    rcases List.append_eq_nil.mp h with ⟨h1, h2⟩
    have ihn := nodeRemoveTags_of_no_find tags n h1
    have iht := listRemoveTags_of_no_find tags ns h2
    simp [listRemoveTags, ihn, iht]
end

/- Claim theorems. -/

/-- Claim C1 (code bug): the claim states that the aggregator computes every
category score from that category's Findings and averages the strictly
positive ones into the overall score.  The code stops after the technical
category — its own comment announces the remaining categories but they are
never computed — so on audit results whose only good Finding sits in the
on-page category the code yields overall score 0 while the claim's stated rule
yields 100. -/
theorem C1_score_aggregator_divergence :
    (calculate_scores divergenceReport).overall_score = 0
    ∧ claimOverallScore divergenceReport = 100 := by
  constructor
  · norm_num [calculate_scores, divergenceReport, goodFinding, scoreStep, statusPoints,
      round1, roundHalfEven, ratFloor]
  · norm_num [claimOverallScore, claimCategoryScore, divergenceReport, goodFinding, statusPoints,
      List.filterMap_cons, Option.map_some, List.sum_cons, List.sum_nil, List.filter]

/-- Claim C2 (code bug): the claim states that every category's score is
derived from its Findings by the aggregation rule and none is left
uncomputed.  In the code only the technical score is computed; the other four
stay at their initial 0 regardless of the Findings, so an on-page category
holding one good Finding is scored 0 where the stated rule gives 100. -/
theorem C2_category_scores_left_uncomputed :
    (calculate_scores divergenceReport).on_page_seo_score = 0
    ∧ (calculate_scores divergenceReport).off_page_seo_score = 0
    ∧ (calculate_scores divergenceReport).user_experience_score = 0
    ∧ (calculate_scores divergenceReport).security_performance_score = 0
    ∧ claimCategoryScore divergenceReport.on_page_seo = 100 := by
  refine ⟨rfl, rfl, rfl, rfl, ?_⟩
  norm_num [claimCategoryScore, divergenceReport, goodFinding, statusPoints,
    List.filterMap_cons, Option.map_some, List.sum_cons, List.sum_nil]

/-- Claim C3 (counterexample): a single link whose existence check raises a
transport exception is counted as broken but appended to neither classified
list, so broken_count exceeds len(internal) + len(external). -/
theorem C3_broken_count_counterexample :
    let r := check_broken_links id (fun _ => HeadOutcome.exc) "a.com"
      [{ href := "https://b.com/x", text := "x" }]
    r.broken_count = 1 ∧ r.internal = [] ∧ r.external = []
    ∧ r.broken_count ≠ r.internal.length + r.external.length := by decide

/-- Claim C3 (amended): broken_count equals len(internal) + len(external) plus
the number of sampled links whose existence check raised a transport
exception; the claimed equality holds exactly when no check raised. -/
theorem C3_broken_count_amended :
    ∀ (resolve : String → String) (head : String → HeadOutcome)
      (domain : String) (links : List Anchor),
      (check_broken_links resolve head domain links).broken_count
        = (check_broken_links resolve head domain links).internal.length
          + (check_broken_links resolve head domain links).external.length
          + excCount resolve head links := by
  intro resolve head domain links
  have h := probeDelta_foldl resolve head domain (links.take 20)
    { internal := [], external := [], total_checked := 0, broken_count := 0
      status := "", recommendation := "" }
  simp only [probeDelta] at h
  simp only [check_broken_links, excCount, probeDelta]
  simp only [List.length_nil] at h
  omega

/-- Claim C4 (counterexample): an analyzer failure is stored as a mapping
holding only the error key; the stored Finding has no status field at all —
in particular not status error — and no recommendation field. -/
theorem C4_error_finding_counterexample :
    runCheck (Except.error "division by zero")
      = { status := none, error := some "division by zero", recommendation := none }
    ∧ (runCheck (Except.error "division by zero")).status ≠ some "error"
    ∧ (runCheck (Except.error "division by zero")).recommendation = none := by decide

/-- Claim C4 (amended): any internal analyzer failure is caught at the
analyzer boundary and converted into a mapping whose only key is error,
carrying the failure description; no status or recommendation field is set,
and consequently the stored entry is invisible to the score aggregator's
status scan. -/
theorem C4_error_boundary_amended :
    ∀ (e : String) (f : Finding) (acc : ℚ × Nat),
      runCheck (Except.error e) = { status := none, error := some e, recommendation := none }
      ∧ runCheck (Except.ok f) = f
      ∧ scoreStep acc ("check", runCheck (Except.error e)) = acc := by
  intro e f acc
  exact ⟨rfl, rfl, rfl⟩

/-- Claim C5 (counterexample): when the fetch fails, the exception jumps past
every analyzer, so the returned report records the top-level error but every
category is empty — no error-status Finding is contributed — even though the
analyzers would have produced Findings had they run. -/
theorem C5_fetch_failure_counterexample :
    c5Report.error = some "Connection timed out"
    ∧ c5Report.technical_seo = []
    ∧ c5Report.on_page_seo = []
    ∧ c5Report.off_page_seo = []
    ∧ c5Report.user_experience = []
    ∧ c5Report.security_performance = []
    ∧ c5Analyzer NodeList.nil ≠ [] := by decide

/-- Claim C5 (amended): on a fetch failure the pipeline records the failure
message as the report's top-level error and returns the partial report rather
than raising, but the downstream analyzers never run: every category remains
its initial empty mapping and no scores are computed. -/
theorem C5_fetch_failure_amended :
    ∀ (url domain e : String) (tech onp offp ux sec : NodeList → List (String × Finding)),
      audit_website url domain (FetchResult.fail e) tech onp offp ux sec
        = { url := url, domain := domain
            technical_seo := [], on_page_seo := [], off_page_seo := []
            user_experience := [], security_performance := []
            error := some e, scores := none } := by
  intro url domain e tech onp offp ux sec
  rfl

/-- Claim C6 (counterexample): the content analyzer decomposes the shared
document's style element, so the responsive-design analyzer observes one
media query before content analysis ran and zero after it, flipping its
status from good to needs_improvement — the analyzers are not
order-independent. -/
theorem C6_shared_document_counterexample :
    (check_responsive_design mediaDoc).css_media_queries_found = 1
    ∧ (check_responsive_design mediaDoc).status = "good"
    ∧ (check_responsive_design ((analyze_content mediaDoc).2)).css_media_queries_found = 0
    ∧ (check_responsive_design ((analyze_content mediaDoc).2)).status = "needs_improvement" := by
  decide

/-- Claim C6 (amended): the content analyzer mutates the shared document,
leaving it with every script and style element removed; the document is
unchanged only when it contains no script or style element. -/
theorem C6_content_mutation_amended :
    ∀ d : NodeList,
      (analyze_content d).2 = listRemoveTags ["script", "style"] d
      ∧ (findAllTag ["script", "style"] d = [] → (analyze_content d).2 = d) := by
  intro d
  refine ⟨rfl, fun h => ?_⟩
  exact listRemoveTags_of_no_find ["script", "style"] d h

/-- Witness for the amended claim C6 at a document without script or style
elements. -/
theorem C6_content_mutation_witness :
    findAllTag ["script", "style"] bodyOnlyDoc = []
    ∧ (analyze_content bodyOnlyDoc).2 = bodyOnlyDoc :=
  ⟨rfl, (C6_content_mutation_amended bodyOnlyDoc).2 rfl⟩

/-- Claim C7 (counterexample): a broken link resolved to a URL on host
www.a.com is classified internal when the audited domain is a.com, because
classification tests substring membership of the domain in the full URL, not
host equality. -/
theorem C7_classification_counterexample :
    let r := check_broken_links id (fun _ => HeadOutcome.status 404) "a.com"
      [{ href := "https://www.a.com/page", text := "home" }]
    r.internal.length = 1 ∧ r.external = []
    ∧ hostOf "https://www.a.com/page" = "www.a.com"
    ∧ "www.a.com" ≠ "a.com" := by decide

/-- Claim C7 (amended): a broken link is classified internal exactly when the
audited domain occurs as a substring of the full resolved URL string (the
Python membership test), and external otherwise. -/
theorem C7_classification_amended :
    ∀ (resolve : String → String) (head : String → HeadOutcome)
      (domain : String) (links : List Anchor),
      (check_broken_links resolve head domain links).internal.all
          (fun ld => listInfix domain.data ld.url.data) = true
      ∧ (check_broken_links resolve head domain links).external.all
          (fun ld => !listInfix domain.data ld.url.data) = true := by
  intro resolve head domain links
  have h := probe_all_foldl resolve head domain (links.take 20)
    { internal := [], external := [], total_checked := 0, broken_count := 0
      status := "", recommendation := "" } (by simp) (by simp)
  simpa [check_broken_links] using h

/-- Claim C8 (counterexample): two distinct submissions of the same URL within
the same second receive the same identifier, so identifiers are reused. -/
theorem C8_identifier_reuse_counterexample :
    submission_ids (fun _ => 1234)
        [("20240101_120000", "https://example.com"), ("20240101_120000", "https://example.com")]
      = ["audit_20240101_120000_1234", "audit_20240101_120000_1234"]
    ∧ ¬ (submission_ids (fun _ => 1234)
        [("20240101_120000", "https://example.com"), ("20240101_120000", "https://example.com")]).Nodup := by
  decide

/-- Claim C8 (amended): an identifier is determined entirely by the
submission's second-resolution timestamp and the URL hash reduced modulo
10000, so any two submissions agreeing on both — in particular two
submissions of one URL within one second — are assigned the same identifier;
nothing prevents reuse. -/
theorem C8_identifier_amended :
    ∀ (now : String) (h : String → Int) (u v : String),
      h u % 10000 = h v % 10000 → start_audit_id now (h u) = start_audit_id now (h v) := by
  intro now h u v hm
  unfold start_audit_id
  rw [hm]

/-- Witness for the amended claim C8 at two concrete same-second submissions. -/
theorem C8_identifier_witness :
    start_audit_id "20240101_120000" ((fun _ => (1234 : Int)) "https://a.com")
      = start_audit_id "20240101_120000" ((fun _ => (1234 : Int)) "https://b.com") :=
  C8_identifier_amended "20240101_120000" (fun _ => 1234) "https://a.com" "https://b.com" rfl

/-- Claim C9: the status query answers completed exactly when the identifier
is a key of the result cache and running otherwise, so an unknown identifier
is indistinguishable from a submitted-but-unfinished job, and polling before
the report is cached never answers completed. -/
theorem C9_status_query :
    ∀ (cache : List (String × AuditReport)) (id1 id2 : String),
      ((audit_status cache id1).1 = "completed" ↔ (cache.map Prod.fst).contains id1 = true)
      ∧ ((audit_status cache id1).1 = "running" ↔ (cache.map Prod.fst).contains id1 = false)
      ∧ ((cache.map Prod.fst).contains id1 = false → (cache.map Prod.fst).contains id2 = false →
          (audit_status cache id1).1 = (audit_status cache id2).1) := by
  intro cache id1 id2
  refine ⟨?_, ?_, ?_⟩
  · simp only [audit_status]
    by_cases h1 : (cache.map Prod.fst).contains id1 = true
    · rw [if_pos h1]
      exact ⟨fun _ => h1, fun _ => rfl⟩
    · rw [if_neg h1]
      have hb : (cache.map Prod.fst).contains id1 = false := by
        cases hc : (cache.map Prod.fst).contains id1
        · rfl
        · exact absurd hc h1
      exact ⟨fun hq => absurd hq (show ¬ "running" = "completed" by decide),
        fun ht => absurd (ht.symm.trans hb) (by decide)⟩
  · simp only [audit_status]
    by_cases h1 : (cache.map Prod.fst).contains id1 = true
    · rw [if_pos h1]
      exact ⟨fun hq => absurd hq (show ¬ "completed" = "running" by decide),
        fun hf => absurd (h1.symm.trans hf) (by decide)⟩
    · rw [if_neg h1]
      have hb : (cache.map Prod.fst).contains id1 = false := by
        cases hc : (cache.map Prod.fst).contains id1
        · rfl
        · exact absurd hc h1
      exact ⟨fun _ => hb, fun _ => rfl⟩
  · intro ha hb2
    have h1 : ¬ (cache.map Prod.fst).contains id1 = true :=
      fun hq => absurd (hq.symm.trans ha) (by decide)
    have h2 : ¬ (cache.map Prod.fst).contains id2 = true :=
      fun hq => absurd (hq.symm.trans hb2) (by decide)
    simp only [audit_status]
    rw [if_neg h1, if_neg h2]

/-- Witness for claim C9: with an empty cache, a submitted-but-unfinished job
and an unknown identifier are answered identically. -/
theorem C9_status_query_witness :
    (audit_status [] "submitted-job").1 = (audit_status [] "unknown-job").1 :=
  (C9_status_query [] "submitted-job" "unknown-job").2.2 (by decide) (by decide)

/-- Claim C10: total_schemas counts every JSON-LD script block (malformed ones
included — they are skipped only from the reported sample), every element with
an itemtype attribute, and every element with a property attribute, the cap of
10 applying only to the reported RDFa sample; status is good exactly when the
total is positive, so a page whose only structured data is one malformed
JSON-LD block is still scored good. -/
theorem C10_structured_data_totals :
    (∀ (parse : String → Option (String × String)) (d : NodeList),
      (analyze_structured_data parse d).total_schemas
        = (listFindAll (fun t a => t == "script" && attrsGet a "type" == some "application/ld+json") d).length
          + (listFindAll (fun _ a => (attrsGet a "itemtype").isSome) d).length
          + (listFindAll (fun _ a => (attrsGet a "property").isSome) d).length
      ∧ ((analyze_structured_data parse d).status = "good"
          ↔ 0 < (analyze_structured_data parse d).total_schemas)
      ∧ (analyze_structured_data parse d).rdfa_properties.length ≤ 10)
    ∧ (analyze_structured_data (fun _ => none) badJsonDoc).total_schemas = 1
    ∧ (analyze_structured_data (fun _ => none) badJsonDoc).json_ld_scripts = []
    ∧ (analyze_structured_data (fun _ => none) badJsonDoc).status = "good" := by
  refine ⟨fun parse d => ⟨rfl, ?_, ?_⟩, by decide, by decide, by decide⟩
  · simp only [analyze_structured_data]
    by_cases h : 0 < (listFindAll (fun t a => t == "script" && attrsGet a "type" == some "application/ld+json") d).length
        + (listFindAll (fun _ a => (attrsGet a "itemtype").isSome) d).length
        + (listFindAll (fun _ a => (attrsGet a "property").isSome) d).length
    · simp [h]
    · simp [h, Nat.not_lt.mp]
  · have h1 : (((listFindAll (fun _ a => (attrsGet a "property").isSome) d).take 10).filterMap
        (fun n => n.getAttr "property")).length
        ≤ ((listFindAll (fun _ a => (attrsGet a "property").isSome) d).take 10).length :=
      List.length_filterMap_le _ _
    have h2 : ((listFindAll (fun _ a => (attrsGet a "property").isSome) d).take 10).length ≤ 10 := by
      simp [List.length_take]
    simp only [analyze_structured_data]
    omega

end SEOAudit
